import Mathlib

/-!
Verification of the financial aggregation logic of the Pantagon Assets
personal-finance application (a React/TypeScript client whose business logic
is pure computation over fetched record lists).

The relevant source functions are shallowly embedded here:

* `calculateAssetView` (src/pages/Dashboard.tsx) — the Balance Aggregator:
  folds signed cash-flow records into a grand total and per-account balances,
  then sorts the account list by descending balance.
* the FX analytics of FXPage (arithmetic-mean rate) and of FXAnalytics.tsx
  (volume-weighted rate) — the FX Aggregator.
* `symbolSummaries`, `netPL`, `overallBuy`, `overallSell`, `buildPayload`,
  `handleSave` and the batch-import validation of the DimeStock page —
  the Position/Cost-Basis Aggregator and its ingestion paths.

JavaScript numbers are modelled as `ℚ` (the source performs plain field
arithmetic on decimal amounts), nullable fields as `Option`, and the JS
string operations used by the source (`toUpperCase`, `trim`, lexicographic
`<` on date strings) as executable functions on the character lists so that
concrete inputs evaluate inside the kernel.
-/

namespace Pantagon

/-! ### JS string primitives used by the source -/

/-- JS `String.prototype.toUpperCase` (ASCII-relevant part), per character. -/
def jsToUpper (s : String) : String := String.mk (s.data.map Char.toUpper)

/-- Drop leading whitespace characters. -/
def trimLeftChars : List Char → List Char
  | [] => []
  | c :: cs => if c.isWhitespace then trimLeftChars cs else c :: cs

/-- JS `String.prototype.trim`: strip whitespace from both ends. -/
def jsTrim (s : String) : String :=
  String.mk ((trimLeftChars (trimLeftChars s.data.reverse)).reverse)

/-- Lexicographic comparison of character lists (JS `<`/`>` on strings). -/
def charListLt : List Char → List Char → Bool
  | [], [] => false
  | [], _ :: _ => true
  | _ :: _, [] => false
  | a :: as, b :: bs => if a < b then true else if b < a then false else charListLt as bs

/-- JS `a < b` on strings (used on ISO date strings, where it is date order). -/
def jsStrLt (a b : String) : Bool := charListLt a.data b.data

/-! ### Data model (src/types.ts and the DB row shapes used by the pages) -/

/-- An asset cash-flow record (`PantagonAsset` in src/types.ts).  `id`,
`note`, `tag` and `created_at` play no role in the aggregation and are
omitted. -/
structure PantagonAsset where
  account_name : String
  type : String
  amount : ℚ
  date : String
deriving DecidableEq

/-- An FX conversion record (`PantagonUSD` in src/types.ts); `id`, `type`
and `created_at` are omitted as unused by the analytics computations. -/
structure PantagonUSD where
  foreign_amount : ℚ
  thb_amount : ℚ
  exchange_rate : ℚ
  transaction_at : String
  from_currency : String
  to_currency : String
deriving DecidableEq

/-- A stored stock-trade record (`DimeTransaction`, the `dime_transactions`
row shape used by the DimeStock page). -/
structure DimeTransaction where
  side : String
  transaction_date : String
  symbol : String
  shares : Option ℚ
  total_amount : ℚ
  executed_price : ℚ
  commission : Option ℚ
  vat : Option ℚ
  fee : Option ℚ
  sec_fee : Option ℚ
  taf_fee : Option ℚ
  input_amount_usd : Option ℚ
  input_shares : Option ℚ
  stock_amount : Option ℚ
  currency : String
deriving DecidableEq

/-- `Number(x ?? 0)` / `Number(x || 0)` on a nullable numeric field. -/
def optD0 (o : Option ℚ) : ℚ := o.getD 0

/-! ### Balance Aggregator (`calculateAssetView`, src/pages/Dashboard.tsx) -/

/-- `item.type === 'IN' ? amount : -amount`. -/
def signedAmount (a : PantagonAsset) : ℚ := if a.type = "IN" then a.amount else -a.amount

/-- `item.account_name || 'Unassigned'` (empty string is falsy in JS). -/
def accName (a : PantagonAsset) : String :=
  if a.account_name = "" then "Unassigned" else a.account_name

/-- `accountMap[accName] = (accountMap[accName] || 0) + signedAmount`, on an
association list in key-insertion order (JS object string keys preserve
insertion order). -/
def addToMap : List (String × ℚ) → String → ℚ → List (String × ℚ)
  | [], k, v => [(k, v)]
  | (k', v') :: rest, k, v =>
    if k' = k then (k', v' + v) :: rest else (k', v') :: addToMap rest k v

/-- One iteration of the `data.forEach` loop of `calculateAssetView`:
accumulate the grand total and the per-account map. -/
def assetStep (acc : ℚ × List (String × ℚ)) (item : PantagonAsset) : ℚ × List (String × ℚ) :=
  (acc.1 + signedAmount item, addToMap acc.2 (accName item) (signedAmount item))

/-- The comparator `(a, b) => b.balance - a.balance`: `a` precedes `b` when
`b.balance ≤ a.balance` (descending balance; JS sort is stable). -/
def balanceDesc (a b : String × ℚ) : Prop := b.2 ≤ a.2

instance : DecidableRel balanceDesc := fun a b => inferInstanceAs (Decidable (b.2 ≤ a.2))

instance : IsTotal (String × ℚ) balanceDesc := ⟨fun a b => le_total b.2 a.2⟩

instance : IsTrans (String × ℚ) balanceDesc := ⟨fun _ _ _ hab hbc => le_trans hbc hab⟩

/-- The result of `calculateAssetView`: `totalAssetValue` and the sorted
account list. -/
structure AssetView where
  total : ℚ
  accounts : List (String × ℚ)
deriving DecidableEq

/-- `calculateAssetView` (src/pages/Dashboard.tsx, lines 39-64): fold the
records into the grand total and the per-account map, then sort the account
list by descending balance. -/
def calculateAssetView (data : List PantagonAsset) : AssetView :=
  let acc := data.foldl assetStep (0, [])
  { total := acc.1, accounts := acc.2.insertionSort balanceDesc }

/-! ### Lemmas about the balance fold -/

lemma foldl_assetStep_fst (data : List PantagonAsset) :
    ∀ t m, (data.foldl assetStep (t, m)).1 = t + (data.map signedAmount).sum := by
  induction data with
  | nil => intro t m; simp
  | cons a l ih =>
    intro t m
    simp only [List.foldl_cons, List.map_cons, List.sum_cons, assetStep]
    rw [ih]
    ring

lemma addToMap_snd_sum (m : List (String × ℚ)) (k : String) (v : ℚ) :
    ((addToMap m k v).map Prod.snd).sum = (m.map Prod.snd).sum + v := by
  induction m with
  | nil => simp [addToMap]
  | cons p rest ih =>
    obtain ⟨k', v'⟩ := p
    by_cases h : k' = k
    · simp [addToMap, h]; ring
    · simp [addToMap, h, ih]; ring

lemma foldl_assetStep_snd (data : List PantagonAsset) :
    ∀ t m, (((data.foldl assetStep (t, m)).2).map Prod.snd).sum
      = (m.map Prod.snd).sum + (data.map signedAmount).sum := by
  induction data with
  | nil => intro t m; simp
  | cons a l ih =>
    intro t m
    simp only [List.foldl_cons, List.map_cons, List.sum_cons, assetStep]
    rw [ih, addToMap_snd_sum]
    ring

lemma insertionSort_map_snd_sum (l : List (String × ℚ)) :
    (((l.insertionSort balanceDesc).map Prod.snd).sum) = ((l.map Prod.snd).sum) :=
  ((List.perm_insertionSort balanceDesc l).map Prod.snd).sum_eq

/-- Claim C1: for every collection of `PantagonAsset` records, the Balance
Aggregator's grand total equals the sum over all records of the signed value
(`+amount` for IN, `-amount` for OUT), and the per-account balances it
produces sum to that same grand total. -/
theorem balance_totals_consistent (data : List PantagonAsset) :
    (calculateAssetView data).total = (data.map signedAmount).sum ∧
    (((calculateAssetView data).accounts).map Prod.snd).sum = (calculateAssetView data).total := by
  constructor
  · simpa using foldl_assetStep_fst data 0 []
  · show (((List.foldl assetStep (0, []) data).2.insertionSort balanceDesc).map Prod.snd).sum
      = (List.foldl assetStep (0, []) data).1
    rw [insertionSort_map_snd_sum, foldl_assetStep_fst data 0 []]
    simpa using foldl_assetStep_snd data 0 []

/-- The two-record input of claim C6: accounts
`{"Random Bank": 100, "Dime Invest": 50}`. -/
def exC6 : List PantagonAsset :=
  [⟨"Random Bank", "IN", 100, "2024-01-01"⟩, ⟨"Dime Invest", "IN", 50, "2024-01-02"⟩]

/-- Claim C6 is false on the code: `calculateAssetView` ranks accounts by
descending balance only, so on `{"Random Bank": 100, "Dime Invest": 50}` the
account list puts "Random Bank" first and "Dime Invest" does not precede it —
no institution-priority ranking exists in the sort. -/
theorem account_ranking_counterexample :
    ((calculateAssetView exC6).accounts.map Prod.fst = ["Random Bank", "Dime Invest"]) ∧
    ¬ (((calculateAssetView exC6).accounts.map Prod.fst).indexOf "Dime Invest"
        < ((calculateAssetView exC6).accounts.map Prod.fst).indexOf "Random Bank") := by
  have h : (calculateAssetView exC6).accounts.map Prod.fst = ["Random Bank", "Dime Invest"] := by
    norm_num [calculateAssetView, exC6, assetStep, addToMap, signedAmount, accName,
      List.insertionSort, List.orderedInsert, balanceDesc]
    decide
  refine ⟨h, ?_⟩
  rw [h]
  decide

/-- Claim C6 (amended): the account list produced by the Balance Aggregator is
ordered by descending balance alone — there is no institution-priority
ranking — so for the input accounts `{"Random Bank": 100, "Dime Invest": 50}`
the larger-balance account "Random Bank" is ranked first. -/
theorem account_ranking_by_descending_balance (data : List PantagonAsset) :
    ((calculateAssetView data).accounts).Sorted balanceDesc ∧
    (calculateAssetView exC6).accounts = [("Random Bank", 100), ("Dime Invest", 50)] := by
  refine ⟨List.sorted_insertionSort balanceDesc _, ?_⟩
  norm_num [calculateAssetView, exC6, assetStep, addToMap, signedAmount, accName,
    List.insertionSort, List.orderedInsert, balanceDesc]
  decide

/-! ### FX Aggregator

Two views exist in the source.  FXPage (src/unnamed/part_001) computes an
arithmetic-mean rate over the filtered records; FXAnalytics.tsx computes a
volume-weighted rate.  Both are modelled on an already-filtered record list
(the claims quantify over "the filtered set"). -/

/-- Accumulator of the `filteredData.forEach` loop of FXPage's `analytics`. -/
structure FxAcc where
  totalThbIn : ℚ
  totalThbOut : ℚ
  totalRate : ℚ
  count : Nat
deriving DecidableEq

/-- One iteration of FXPage's `analytics` loop: THB-in when the destination
currency is THB, else THB-out when the source currency is THB; every record
contributes its stored rate to the arithmetic mean. -/
def fxStep (acc : FxAcc) (item : PantagonUSD) : FxAcc :=
  let acc :=
    if item.to_currency = "THB" then
      { acc with totalThbIn := acc.totalThbIn + item.thb_amount }
    else if item.from_currency = "THB" then
      { acc with totalThbOut := acc.totalThbOut + item.thb_amount }
    else acc
  { acc with totalRate := acc.totalRate + item.exchange_rate, count := acc.count + 1 }

/-- The analytics record FXPage derives from the filtered data. -/
structure FxView where
  totalThbIn : ℚ
  totalThbOut : ℚ
  avgRate : ℚ
  count : Nat
deriving DecidableEq

/-- FXPage's `analytics` (src/unnamed/part_001, lines 81-106):
`avgRate = count > 0 ? totalRate / count : 0`. -/
def fxAnalytics (filteredData : List PantagonUSD) : FxView :=
  let acc := filteredData.foldl fxStep ⟨0, 0, 0, 0⟩
  { totalThbIn := acc.totalThbIn, totalThbOut := acc.totalThbOut,
    avgRate := if 0 < acc.count then acc.totalRate / (acc.count : ℚ) else 0,
    count := acc.count }

/-- `totalThbVolume` of FXAnalytics.tsx: sum of `thb_amount` over the
filtered records (`Number(item.thb_amount || 0)` is the identity on a
non-null numeric field). -/
def totalThbVolume (l : List PantagonUSD) : ℚ := (l.map PantagonUSD.thb_amount).sum

/-- `totalForeignVolume` of FXAnalytics.tsx: sum of `foreign_amount`. -/
def totalForeignVolume (l : List PantagonUSD) : ℚ := (l.map PantagonUSD.foreign_amount).sum

/-- `weightedAvgRate` of FXAnalytics.tsx (lines 128-136):
`totalForeignVolume > 0 ? totalThbVolume / totalForeignVolume : 0`. -/
def weightedAvgRate (l : List PantagonUSD) : ℚ :=
  if 0 < totalForeignVolume l then totalThbVolume l / totalForeignVolume l else 0

/-- Claim C8: for every filtered set of FX records with positive total
foreign volume, duplicating every record leaves the volume-weighted average
rate unchanged. -/
theorem weighted_rate_scale_invariant (l : List PantagonUSD)
    (h : 0 < totalForeignVolume l) :
    weightedAvgRate (l ++ l) = weightedAvgRate l := by
  have hf : totalForeignVolume (l ++ l) = 2 * totalForeignVolume l := by
    simp [totalForeignVolume]; ring
  have ht : totalThbVolume (l ++ l) = 2 * totalThbVolume l := by
    simp [totalThbVolume]; ring
  rw [weightedAvgRate, weightedAvgRate, hf, ht, if_pos (by linarith), if_pos h,
    mul_div_mul_left _ _ (two_ne_zero)]

/-- A one-record filtered set with positive foreign volume. -/
def exFx : List PantagonUSD := [⟨2, 70, 35, "2024-01-01", "THB", "USD"⟩]

/-- Witness for C8 at a concrete one-record set. -/
theorem weighted_rate_scale_invariant_witness :
    0 < totalForeignVolume exFx ∧ weightedAvgRate (exFx ++ exFx) = weightedAvgRate exFx := by
  have h : 0 < totalForeignVolume exFx := by norm_num [totalForeignVolume, exFx]
  exact ⟨h, weighted_rate_scale_invariant exFx h⟩

/-- Claim C10: the FX average-rate computations are total with guarded
denominators — the arithmetic-mean rate is 0 on an empty filtered set, and
the volume-weighted rate is 0 whenever the total foreign volume is not
positive; no division is reached in either case. -/
theorem fx_average_guarded (l m : List PantagonUSD)
    (hl : l = []) (hm : totalForeignVolume m ≤ 0) :
    (fxAnalytics l).avgRate = 0 ∧ weightedAvgRate m = 0 := by
  subst hl
  exact ⟨rfl, by rw [weightedAvgRate, if_neg (not_lt.mpr hm)]⟩

/-- A one-record filtered set with zero foreign volume. -/
def exFxZero : List PantagonUSD := [⟨0, 70, 35, "2024-01-01", "THB", "USD"⟩]

/-- Witness for C10 at concrete inputs. -/
theorem fx_average_guarded_witness :
    totalForeignVolume exFxZero ≤ 0 ∧
    (fxAnalytics ([] : List PantagonUSD)).avgRate = 0 ∧ weightedAvgRate exFxZero = 0 := by
  have hm : totalForeignVolume exFxZero ≤ 0 := by norm_num [totalForeignVolume, exFxZero]
  have h := fx_average_guarded [] exFxZero rfl hm
  exact ⟨hm, h.1, h.2⟩

/-! ### Position / Cost-Basis Aggregator (DimeStock page, src/unnamed/part_002) -/

/-- Per-symbol aggregate (the `SymbolSummary` interface of the source). -/
structure SymbolSummary where
  symbol : String
  totalBuyAmount : ℚ
  totalSellAmount : ℚ
  totalShares : ℚ
  avgBuyPrice : ℚ
  txCount : Nat
  latestDate : String
  totalStockAmount : ℚ
deriving DecidableEq

/-- `const sym = tx.symbol || 'UNKNOWN'` (empty string is falsy). -/
def symKey (tx : DimeTransaction) : String := if tx.symbol = "" then "UNKNOWN" else tx.symbol

/-- The fresh map entry created when a symbol is first seen. -/
def initSummary (sym d : String) : SymbolSummary := ⟨sym, 0, 0, 0, 0, 0, d, 0⟩

/-- One iteration of the `transactions.forEach` loop of `symbolSummaries`:
count the trade, track the latest date, and accumulate BUY / INIT / SELL
amounts (any side other than BUY and INIT falls into the SELL branch, as in
the source's final `else`). -/
def updateSummary (s : SymbolSummary) (tx : DimeTransaction) : SymbolSummary :=
  let s := { s with
    txCount := s.txCount + 1,
    latestDate := if jsStrLt s.latestDate tx.transaction_date then tx.transaction_date
      else s.latestDate }
  if tx.side = "BUY" then
    { s with totalBuyAmount := s.totalBuyAmount + tx.total_amount,
             totalShares := s.totalShares + optD0 tx.shares,
             totalStockAmount := s.totalStockAmount + optD0 tx.stock_amount }
  else if tx.side = "INIT" then
    { s with totalBuyAmount := s.totalBuyAmount + optD0 tx.stock_amount,
             totalShares := s.totalShares + optD0 tx.shares,
             totalStockAmount := s.totalStockAmount + optD0 tx.stock_amount }
  else
    { s with totalSellAmount := s.totalSellAmount + tx.total_amount,
             totalShares := s.totalShares - optD0 tx.shares,
             totalStockAmount := s.totalStockAmount - optD0 tx.stock_amount }

/-- Insert a trade into the symbol map, kept as a list in key-insertion
order (JS `Object.values` preserves string-key insertion order). -/
def upsertSummary : List SymbolSummary → DimeTransaction → List SymbolSummary
  | [], tx => [updateSummary (initSummary (symKey tx) tx.transaction_date) tx]
  | s :: rest, tx =>
    if s.symbol = symKey tx then updateSummary s tx :: rest
    else s :: upsertSummary rest tx

/-- The symbol map after the first `forEach` pass of `symbolSummaries`. -/
def summariesMap (txs : List DimeTransaction) : List SymbolSummary :=
  txs.foldl upsertSummary []

/-- `t.side === 'BUY' || t.side === 'INIT'`. -/
def isBuyInit (t : DimeTransaction) : Bool := t.side == "BUY" || t.side == "INIT"

/-- The second pass of `symbolSummaries`: the unweighted arithmetic mean of
`executed_price` over the BUY + INIT trades whose raw `symbol` equals the
summary's symbol (note the source filters on `t.symbol === s.symbol`, the
raw field, not the UNKNOWN-defaulted key). -/
def setAvg (txs : List DimeTransaction) (s : SymbolSummary) : SymbolSummary :=
  let buys := txs.filter (fun t => t.symbol == s.symbol && isBuyInit t)
  if buys.length = 0 then s
  else { s with avgBuyPrice := (buys.map DimeTransaction.executed_price).sum / (buys.length : ℚ) }

/-- The comparator `(a, b) => b.totalStockAmount - a.totalStockAmount`
(descending net stock amount). -/
def stockDesc (a b : SymbolSummary) : Prop := b.totalStockAmount ≤ a.totalStockAmount

instance : DecidableRel stockDesc :=
  fun a b => inferInstanceAs (Decidable (b.totalStockAmount ≤ a.totalStockAmount))

/-- `symbolSummaries` (src/unnamed/part_002, lines 142-180): group, average,
then sort by descending net stock amount. -/
def symbolSummaries (txs : List DimeTransaction) : List SymbolSummary :=
  ((summariesMap txs).map (setAvg txs)).insertionSort stockDesc

/-- The per-symbol term of the `netPL` reduce (lines 188-197): zero when
`totalSellAmount === 0`, else
`totalSellAmount - totalBuyAmount * min(sellRatio, 1)` where the ratio is 1
for a net-negative position and `|totalSellAmount| / (totalBuyAmount || 1)`
otherwise. -/
def symbolRealized (s : SymbolSummary) : ℚ :=
  if s.totalSellAmount = 0 then 0
  else
    let r := if s.totalShares < 0 then 1
      else |s.totalSellAmount| / (if s.totalBuyAmount = 0 then 1 else s.totalBuyAmount)
    s.totalSellAmount - s.totalBuyAmount * min r 1

/-- `netPL`: the sum of the per-symbol terms over `symbolSummaries`. -/
def netPL (txs : List DimeTransaction) : ℚ :=
  ((symbolSummaries txs).map symbolRealized).sum

/-- `overallBuy`: INIT `stock_amount` plus BUY `total_amount` (lines
183-186). -/
def overallBuy (txs : List DimeTransaction) : ℚ :=
  ((txs.filter (fun t => t.side == "INIT")).map (fun t => optD0 t.stock_amount)).sum
    + ((txs.filter (fun t => t.side == "BUY")).map DimeTransaction.total_amount).sum

/-- `overallSell`: sum of SELL `total_amount` (line 187). -/
def overallSell (txs : List DimeTransaction) : ℚ :=
  ((txs.filter (fun t => t.side == "SELL")).map DimeTransaction.total_amount).sum

/-- The per-symbol realized figure displayed in the symbol list (lines
995-997): `s.totalSellAmount > 0 ? s.totalSellAmount - s.totalBuyAmount : 0`
(no ratio factor). -/
def displayedRealized (s : SymbolSummary) : ℚ :=
  if 0 < s.totalSellAmount then s.totalSellAmount - s.totalBuyAmount else 0

/-- Modelled from the spec: the per-symbol realized profit-or-loss formula
claim C4 states — for a group with a SELL,
`realized = sell_proceeds - invested_amount * min(1, |sell_proceeds| / invested_amount)`
when the net share count is non-negative, and the ratio is taken as 1 (so
`realized = sell_proceeds - invested_amount`) when it is negative. -/
def specRealizedPL (s : SymbolSummary) : ℚ :=
  if s.totalShares < 0 then s.totalSellAmount - s.totalBuyAmount
  else s.totalSellAmount - s.totalBuyAmount * min 1 (|s.totalSellAmount| / s.totalBuyAmount)

/-- Claim C4 (amended): the aggregator's per-symbol realized term agrees
with the spec's formula exactly when the symbol's total SELL proceeds are
nonzero; a symbol whose SELL proceeds total zero (in particular one with no
SELL at all) contributes zero. -/
theorem realized_formula (s : SymbolSummary) :
    (s.totalSellAmount ≠ 0 → symbolRealized s = specRealizedPL s) ∧
    (s.totalSellAmount = 0 → symbolRealized s = 0) := by
  constructor
  · intro h
    rw [symbolRealized, if_neg h, specRealizedPL]
    by_cases hsh : s.totalShares < 0
    · rw [if_pos hsh, if_pos hsh]
      simp
    · rw [if_neg hsh, if_neg hsh]
      by_cases hb : s.totalBuyAmount = 0
      · simp [hb]
      · rw [if_neg hb, min_comm]
  · intro h
    rw [symbolRealized, if_pos h]

/-- A concrete summary with nonzero SELL proceeds for the C4 witness. -/
def exSummary : SymbolSummary := ⟨"A", 100, 50, 1, 100, 2, "2024-01-02", 100⟩

/-- Witness for C4 (amended) at a concrete summary. -/
theorem realized_formula_witness :
    exSummary.totalSellAmount ≠ 0 ∧ symbolRealized exSummary = specRealizedPL exSummary := by
  have h : exSummary.totalSellAmount ≠ 0 := by norm_num [exSummary]
  exact ⟨h, (realized_formula exSummary).1 h⟩

/-- The BUY record of the C4 counterexample: 100 spent on 1 share. -/
def txBuyX : DimeTransaction :=
  ⟨"BUY", "2024-01-01", "X", some 1, 100, 100, none, none, none, none, none,
    some 100, none, some 100, "USD"⟩

/-- The SELL record of the C4 counterexample: 2 shares sold at price 1 with
2 of fees, so the net proceeds (`total_amount`) are zero, and the position
is oversold (net shares −1). -/
def txSellX : DimeTransaction :=
  ⟨"SELL", "2024-01-02", "X", some 2, 0, 1, some 2, none, none, none, none,
    none, some 2, some 2, "USD"⟩

/-- The C4 counterexample record set. -/
def exC4 : List DimeTransaction := [txBuyX, txSellX]

/-- Claim C4 is false on the code: the symbol group "X" of `exC4` contains a
SELL trade and has gone net negative, so the claim's formula (ratio taken as
1) gives `0 - 100 = -100`; but the aggregator's per-symbol term — and the
displayed per-symbol figure — are both 0, because the code guards on
`totalSellAmount === 0`, not on the presence of a SELL trade. -/
theorem realized_claim_counterexample :
    (∃ tx ∈ exC4, tx.side = "SELL") ∧
    (symbolSummaries exC4).map symbolRealized = [0] ∧
    (symbolSummaries exC4).map displayedRealized = [0] ∧
    (symbolSummaries exC4).map specRealizedPL = [-100] ∧
    netPL exC4 = 0 := by
  have hb : upsertSummary [] txBuyX = [⟨"X", 100, 0, 1, 0, 1, "2024-01-01", 100⟩] := by
    norm_num [upsertSummary, updateSummary, initSummary, symKey, optD0, txBuyX,
      jsStrLt, charListLt]
    decide
  have hs : upsertSummary [⟨"X", 100, 0, 1, 0, 1, "2024-01-01", 100⟩] txSellX
      = [⟨"X", 100, 0, -1, 0, 2, "2024-01-02", 98⟩] := by
    norm_num [upsertSummary, updateSummary, symKey, optD0, txSellX, jsStrLt, charListLt]
    decide
  have hm : summariesMap exC4 = [⟨"X", 100, 0, -1, 0, 2, "2024-01-02", 98⟩] := by
    unfold summariesMap exC4
    rw [List.foldl_cons, hb, List.foldl_cons, hs, List.foldl_nil]
  have ha : setAvg exC4 ⟨"X", 100, 0, -1, 0, 2, "2024-01-02", 98⟩
      = ⟨"X", 100, 0, -1, 100, 2, "2024-01-02", 98⟩ := by
    have hf : exC4.filter (fun t => t.symbol == ("X" : String) && isBuyInit t) = [txBuyX] := by
      decide
    unfold setAvg
    norm_num [hf, txBuyX]
  have hsum : symbolSummaries exC4 = [⟨"X", 100, 0, -1, 100, 2, "2024-01-02", 98⟩] := by
    unfold symbolSummaries
    rw [hm, List.map_cons, List.map_nil, ha]
    rfl
  refine ⟨⟨txSellX, by simp [exC4], rfl⟩, ?_, ?_, ?_, ?_⟩
  · rw [hsum]; norm_num [symbolRealized]
  · rw [hsum]; norm_num [displayedRealized]
  · rw [hsum]; norm_num [specRealizedPL]
  · rw [netPL, hsum]; norm_num [symbolRealized]

/-! ### Trade entry paths: `buildPayload` (batch import) and `handleSave`
(single-entry form) -/

/-- `Math.abs` on a nullable fee: `x != null ? Math.abs(Number(x)) : null`. -/
def optAbs (o : Option ℚ) : Option ℚ := o.map (fun q => |q|)

/-- `fee === 0 ? null : fee` applied by `buildPayload` to `fee`, `sec_fee`
and `taf_fee`. -/
def zeroToNone (o : Option ℚ) : Option ℚ := if o = some 0 then none else o

/-- The raw object handed to `buildPayload`.  `executed_price` is modelled
as present (callers validate the field before calling; `Number(...)` on it
is then the identity), the entry-mode fields and the fees as nullable. -/
structure RawTrade where
  side : String
  symbol : String
  transaction_date : String
  executed_price : ℚ
  input_amount_usd : Option ℚ
  input_shares : Option ℚ
  commission : Option ℚ
  vat : Option ℚ
  fee : Option ℚ
  sec_fee : Option ℚ
  taf_fee : Option ℚ
deriving DecidableEq

/-- The `totalFees` of `buildPayload`: fees are forced to their absolute
value first, then null-coalesced to 0 and summed. -/
def rawAbsFees (p : RawTrade) : ℚ :=
  optD0 (optAbs p.commission) + optD0 (optAbs p.vat) + optD0 (optAbs p.fee)
    + optD0 (optAbs p.sec_fee) + optD0 (optAbs p.taf_fee)

/-- The sum of the fee components as given (before the absolute value). -/
def sumFeesRaw (p : RawTrade) : ℚ :=
  optD0 p.commission + optD0 p.vat + optD0 p.fee + optD0 p.sec_fee + optD0 p.taf_fee

/-- `buildPayload` (src/unnamed/part_002, lines 294-339).  BUY:
`stock_amount = input_amount_usd - totalFees`,
`shares = stock_amount / executed_price`, `total_amount = input_amount_usd`.
Otherwise (SELL): `shares = input_shares`,
`stock_amount = input_shares * executed_price`,
`total_amount = stock_amount - totalFees`.  The symbol is upper-cased and
trimmed; `new Date(...).toISOString()` on the date is modelled as the given
date string. -/
def buildPayload (p : RawTrade) : DimeTransaction :=
  if p.side = "BUY" then
    { side := p.side, transaction_date := p.transaction_date,
      symbol := jsTrim (jsToUpper p.symbol),
      shares := some ((optD0 p.input_amount_usd - rawAbsFees p) / p.executed_price),
      total_amount := optD0 p.input_amount_usd,
      executed_price := p.executed_price,
      commission := optAbs p.commission, vat := optAbs p.vat,
      fee := zeroToNone (optAbs p.fee), sec_fee := zeroToNone (optAbs p.sec_fee),
      taf_fee := zeroToNone (optAbs p.taf_fee),
      input_amount_usd := some (optD0 p.input_amount_usd), input_shares := none,
      stock_amount := some (optD0 p.input_amount_usd - rawAbsFees p), currency := "USD" }
  else
    { side := p.side, transaction_date := p.transaction_date,
      symbol := jsTrim (jsToUpper p.symbol),
      shares := some (optD0 p.input_shares),
      total_amount := optD0 p.input_shares * p.executed_price - rawAbsFees p,
      executed_price := p.executed_price,
      commission := optAbs p.commission, vat := optAbs p.vat,
      fee := zeroToNone (optAbs p.fee), sec_fee := zeroToNone (optAbs p.sec_fee),
      taf_fee := zeroToNone (optAbs p.taf_fee),
      input_amount_usd := none,
      input_shares := if p.side = "SELL" then some (optD0 p.input_shares) else none,
      stock_amount := some (optD0 p.input_shares * p.executed_price), currency := "USD" }

/-- The single-entry form after parsing (`handleSave`, lines 201-277):
`executed_price` is required; `input_amount_usd` (BUY) resp. `input_shares`
(SELL) is required before the numeric derivation runs; empty fee inputs
parse to null. -/
structure SaveForm where
  side : String
  symbol : String
  transaction_date : String
  executed_price : ℚ
  input_amount_usd : ℚ
  input_shares : ℚ
  commission : Option ℚ
  vat : Option ℚ
  fee : Option ℚ
  sec_fee : Option ℚ
  taf_fee : Option ℚ
deriving DecidableEq

/-- The `totalFees` of `handleSave` (no absolute value on this path). -/
def formTotalFees (f : SaveForm) : ℚ :=
  optD0 f.commission + optD0 f.vat + optD0 f.fee + optD0 f.sec_fee + optD0 f.taf_fee

/-- The payload `handleSave` inserts (lines 216-263).  Same derivation as
`buildPayload` but fees are stored as entered (no absolute value, no
zero-to-null normalization). -/
def handleSavePayload (f : SaveForm) : DimeTransaction :=
  if f.side = "BUY" then
    { side := f.side, transaction_date := f.transaction_date,
      symbol := jsTrim (jsToUpper f.symbol),
      shares := some ((f.input_amount_usd - formTotalFees f) / f.executed_price),
      total_amount := f.input_amount_usd,
      executed_price := f.executed_price,
      commission := f.commission, vat := f.vat, fee := f.fee,
      sec_fee := f.sec_fee, taf_fee := f.taf_fee,
      input_amount_usd := some f.input_amount_usd, input_shares := none,
      stock_amount := some (f.input_amount_usd - formTotalFees f), currency := "USD" }
  else
    { side := f.side, transaction_date := f.transaction_date,
      symbol := jsTrim (jsToUpper f.symbol),
      shares := some f.input_shares,
      total_amount := f.input_shares * f.executed_price - formTotalFees f,
      executed_price := f.executed_price,
      commission := f.commission, vat := f.vat, fee := f.fee,
      sec_fee := f.sec_fee, taf_fee := f.taf_fee,
      input_amount_usd := none,
      input_shares := if f.side = "SELL" then some f.input_shares else none,
      stock_amount := some (f.input_shares * f.executed_price), currency := "USD" }

lemma optD0_optAbs (o : Option ℚ) : optD0 (optAbs o) = |optD0 o| := by
  cases o <;> simp [optD0, optAbs]

/-- When every fee component is non-negative, the absolute-value pass of
`buildPayload` does not change the fee total. -/
lemma rawAbsFees_of_nonneg (p : RawTrade)
    (h1 : 0 ≤ optD0 p.commission) (h2 : 0 ≤ optD0 p.vat) (h3 : 0 ≤ optD0 p.fee)
    (h4 : 0 ≤ optD0 p.sec_fee) (h5 : 0 ≤ optD0 p.taf_fee) :
    rawAbsFees p = sumFeesRaw p := by
  rw [rawAbsFees, sumFeesRaw, optD0_optAbs, optD0_optAbs, optD0_optAbs, optD0_optAbs,
    optD0_optAbs, abs_of_nonneg h1, abs_of_nonneg h2, abs_of_nonneg h3, abs_of_nonneg h4,
    abs_of_nonneg h5]

/-- Claim C2: a BUY saved through either entry path with input cash `c`,
executed price `p`, and (non-negative) fee components summing to `f` stores
`stock_amount = c - f`, `shares = (c - f) / p`, `total_amount = c`. -/
theorem buy_trade_invariants (p : RawTrade) (g : SaveForm) (c fP fG : ℚ)
    (hp : p.side = "BUY") (hg : g.side = "BUY")
    (hc : p.input_amount_usd = some c)
    (hfP : sumFeesRaw p = fP) (hfG : formTotalFees g = fG)
    (h1 : 0 ≤ optD0 p.commission) (h2 : 0 ≤ optD0 p.vat) (h3 : 0 ≤ optD0 p.fee)
    (h4 : 0 ≤ optD0 p.sec_fee) (h5 : 0 ≤ optD0 p.taf_fee) :
    (buildPayload p).stock_amount = some (c - fP) ∧
    (buildPayload p).shares = some ((c - fP) / p.executed_price) ∧
    (buildPayload p).total_amount = c ∧
    (handleSavePayload g).stock_amount = some (g.input_amount_usd - fG) ∧
    (handleSavePayload g).shares = some ((g.input_amount_usd - fG) / g.executed_price) ∧
    (handleSavePayload g).total_amount = g.input_amount_usd := by
  have habs := rawAbsFees_of_nonneg p h1 h2 h3 h4 h5
  rw [buildPayload, handleSavePayload, if_pos hp, if_pos hg]
  simp only [hc, optD0, Option.getD_some, habs, hfP, hfG]
  refine ⟨?_, ?_, ?_, ?_, ?_, ?_⟩ <;> first | rfl | trivial

/-- The concrete BUY of claim C2 on the batch path: 1000 in, fees 4 + 6,
price 100. -/
def exBuyRaw : RawTrade :=
  ⟨"BUY", "AAPL", "2024-01-01", 100, some 1000, none, some 4, some 6, none, none, none⟩

/-- The concrete BUY of claim C2 on the form path. -/
def exBuyForm : SaveForm :=
  ⟨"BUY", "AAPL", "2024-01-01", 100, 1000, 0, some 4, some 6, none, none, none⟩

/-- Witness for C2: the concrete BUY yields `stock_amount = 990` and
`shares = 9.9` on both entry paths. -/
theorem buy_trade_invariants_witness :
    (buildPayload exBuyRaw).stock_amount = some 990 ∧
    (buildPayload exBuyRaw).shares = some (99 / 10) ∧
    (buildPayload exBuyRaw).total_amount = 1000 ∧
    (handleSavePayload exBuyForm).stock_amount = some 990 ∧
    (handleSavePayload exBuyForm).shares = some (99 / 10) ∧
    (handleSavePayload exBuyForm).total_amount = 1000 := by
  have h := buy_trade_invariants exBuyRaw exBuyForm 1000 10 10 rfl rfl rfl
    (by norm_num [sumFeesRaw, optD0, exBuyRaw])
    (by norm_num [formTotalFees, optD0, exBuyForm])
    (by norm_num [optD0, exBuyRaw]) (by norm_num [optD0, exBuyRaw])
    (by norm_num [optD0, exBuyRaw]) (by norm_num [optD0, exBuyRaw])
    (by norm_num [optD0, exBuyRaw])
  have e1 : ((1000 : ℚ) - 10) = 990 := by norm_num
  have e2 : ((1000 : ℚ) - 10) / exBuyRaw.executed_price = 99 / 10 := by
    norm_num [exBuyRaw]
  have e3 : (exBuyForm.input_amount_usd - 10) = 990 := by norm_num [exBuyForm]
  have e4 : (exBuyForm.input_amount_usd - 10) / exBuyForm.executed_price = 99 / 10 := by
    norm_num [exBuyForm]
  refine ⟨?_, ?_, ?_, ?_, ?_, ?_⟩
  · rw [h.1, e1]
  · rw [h.2.1, e2]
  · exact h.2.2.1
  · rw [h.2.2.2.1, e3]
  · rw [h.2.2.2.2.1, e4]
  · rw [h.2.2.2.2.2]; norm_num [exBuyForm]

/-- Claim C3: a SELL saved through either entry path with input share count
`n`, executed price `p`, and (non-negative) fee components summing to `f`
stores `shares = n`, `stock_amount = n * p`, `total_amount = n * p - f`. -/
theorem sell_trade_invariants (p : RawTrade) (g : SaveForm) (n fP fG : ℚ)
    (hp : p.side = "SELL") (hg : g.side = "SELL")
    (hn : p.input_shares = some n)
    (hfP : sumFeesRaw p = fP) (hfG : formTotalFees g = fG)
    (h1 : 0 ≤ optD0 p.commission) (h2 : 0 ≤ optD0 p.vat) (h3 : 0 ≤ optD0 p.fee)
    (h4 : 0 ≤ optD0 p.sec_fee) (h5 : 0 ≤ optD0 p.taf_fee) :
    (buildPayload p).shares = some n ∧
    (buildPayload p).stock_amount = some (n * p.executed_price) ∧
    (buildPayload p).total_amount = n * p.executed_price - fP ∧
    (handleSavePayload g).shares = some g.input_shares ∧
    (handleSavePayload g).stock_amount = some (g.input_shares * g.executed_price) ∧
    (handleSavePayload g).total_amount = g.input_shares * g.executed_price - fG := by
  have habs := rawAbsFees_of_nonneg p h1 h2 h3 h4 h5
  have hpb : ¬ p.side = "BUY" := by rw [hp]; decide
  have hgb : ¬ g.side = "BUY" := by rw [hg]; decide
  rw [buildPayload, handleSavePayload, if_neg hpb, if_neg hgb]
  simp only [hn, optD0, Option.getD_some, habs, hfP, hfG]
  refine ⟨?_, ?_, ?_, ?_, ?_, ?_⟩ <;> first | rfl | trivial

/-- The concrete SELL of claim C3 on the batch path: 5 shares at price 100
with 2 of fees. -/
def exSellRaw : RawTrade :=
  ⟨"SELL", "AAPL", "2024-01-01", 100, none, some 5, some 2, none, none, none, none⟩

/-- The concrete SELL of claim C3 on the form path. -/
def exSellForm : SaveForm :=
  ⟨"SELL", "AAPL", "2024-01-01", 100, 0, 5, some 2, none, none, none, none⟩

/-- Witness for C3: the concrete SELL yields `stock_amount = 500` and
`total_amount = 498` on both entry paths. -/
theorem sell_trade_invariants_witness :
    (buildPayload exSellRaw).shares = some 5 ∧
    (buildPayload exSellRaw).stock_amount = some 500 ∧
    (buildPayload exSellRaw).total_amount = 498 ∧
    (handleSavePayload exSellForm).shares = some 5 ∧
    (handleSavePayload exSellForm).stock_amount = some 500 ∧
    (handleSavePayload exSellForm).total_amount = 498 := by
  have h := sell_trade_invariants exSellRaw exSellForm 5 2 2 rfl rfl rfl
    (by norm_num [sumFeesRaw, optD0, exSellRaw])
    (by norm_num [formTotalFees, optD0, exSellForm])
    (by norm_num [optD0, exSellRaw]) (by norm_num [optD0, exSellRaw])
    (by norm_num [optD0, exSellRaw]) (by norm_num [optD0, exSellRaw])
    (by norm_num [optD0, exSellRaw])
  have e1 : (5 : ℚ) * exSellRaw.executed_price = 500 := by norm_num [exSellRaw]
  have e2 : (5 : ℚ) * exSellRaw.executed_price - 2 = 498 := by norm_num [exSellRaw]
  have e3 : exSellForm.input_shares * exSellForm.executed_price = 500 := by
    norm_num [exSellForm]
  have e4 : exSellForm.input_shares * exSellForm.executed_price - 2 = 498 := by
    norm_num [exSellForm]
  refine ⟨h.1, ?_, ?_, ?_, ?_, ?_⟩
  · rw [h.2.1, e1]
  · rw [h.2.2.1, e2]
  · rw [h.2.2.2.1]; norm_num [exSellForm]
  · rw [h.2.2.2.2.1, e3]
  · rw [h.2.2.2.2.2, e4]

/-! ### Symbol grouping through the entry paths (claim C7) -/

lemma buildPayload_symbol (p : RawTrade) :
    (buildPayload p).symbol = jsTrim (jsToUpper p.symbol) := by
  rw [buildPayload]
  split <;> rfl

lemma updateSummary_symbol (s : SymbolSummary) (tx : DimeTransaction) :
    (updateSummary s tx).symbol = s.symbol := by
  rw [updateSummary]
  split
  · rfl
  split <;> rfl

lemma setAvg_symbol (txs : List DimeTransaction) (s : SymbolSummary) :
    (setAvg txs s).symbol = s.symbol := by
  rw [setAvg]
  split <;> rfl

/-- Claim C7: symbol grouping is case-normalized on entry — for any two
trades whose symbols agree up to letter case (equal after upper-casing), the
stored payloads carry the same upper-cased symbol, and the Position
Aggregator places the two records in a single symbol group keyed by that
upper-cased symbol. -/
theorem symbol_grouping_case_normalized (p q : RawTrade)
    (h : jsToUpper p.symbol = jsToUpper q.symbol)
    (hne : jsTrim (jsToUpper p.symbol) ≠ "") :
    (buildPayload p).symbol = (buildPayload q).symbol ∧
    (symbolSummaries [buildPayload p, buildPayload q]).map SymbolSummary.symbol
      = [jsTrim (jsToUpper p.symbol)] := by
  have hps := buildPayload_symbol p
  have hqs := buildPayload_symbol q
  have hsym : (buildPayload p).symbol = (buildPayload q).symbol := by
    rw [hps, hqs, h]
  refine ⟨hsym, ?_⟩
  have hkey : symKey (buildPayload p) = jsTrim (jsToUpper p.symbol) := by
    rw [symKey, hps]
    exact if_neg hne
  have hkey2 : symKey (buildPayload q) = symKey (buildPayload p) := by
    rw [symKey, symKey, hps, hqs, h]
  have hm : summariesMap [buildPayload p, buildPayload q]
      = [updateSummary
          (updateSummary
            (initSummary (symKey (buildPayload p)) (buildPayload p).transaction_date)
            (buildPayload p))
          (buildPayload q)] := by
    rw [summariesMap, List.foldl_cons, List.foldl_cons, List.foldl_nil]
    rw [show upsertSummary [] (buildPayload p)
        = [updateSummary
            (initSummary (symKey (buildPayload p)) (buildPayload p).transaction_date)
            (buildPayload p)] from rfl]
    rw [upsertSummary, if_pos (by rw [updateSummary_symbol, initSummary, hkey2])]
  rw [symbolSummaries, hm, List.map_cons, List.map_nil]
  show List.map SymbolSummary.symbol [setAvg _ _] = _
  rw [List.map_cons, List.map_nil, setAvg_symbol, updateSummary_symbol,
    updateSummary_symbol, initSummary, hkey]

/-- The BUY entered with lower-case symbol "aapl". -/
def exAapl1 : RawTrade :=
  ⟨"BUY", "aapl", "2024-01-01", 100, some 100, none, none, none, none, none, none⟩

/-- The BUY entered with upper-case symbol "AAPL". -/
def exAapl2 : RawTrade :=
  ⟨"BUY", "AAPL", "2024-01-02", 100, some 100, none, none, none, none, none, none⟩

/-- Witness for C7: trades entered as "aapl" and "AAPL" land in the single
symbol group "AAPL". -/
theorem symbol_grouping_case_normalized_witness :
    jsToUpper exAapl1.symbol = jsToUpper exAapl2.symbol ∧
    (symbolSummaries [buildPayload exAapl1, buildPayload exAapl2]).map SymbolSummary.symbol
      = ["AAPL"] := by
  have h : jsToUpper exAapl1.symbol = jsToUpper exAapl2.symbol := by decide
  have hne : jsTrim (jsToUpper exAapl1.symbol) ≠ "" := by decide
  have hk := symbol_grouping_case_normalized exAapl1 exAapl2 h hne
  refine ⟨h, ?_⟩
  rw [hk.2]
  decide

/-! ### Batch import validation (`applyJson` array path + `handleBatchSave`) -/

/-- A raw parsed batch item before validation: every field may be absent. -/
structure RawItem where
  side : Option String
  symbol : Option String
  executed_price : Option ℚ
  transaction_date : Option String
  input_amount_usd : Option ℚ
  input_shares : Option ℚ
  commission : Option ℚ
  vat : Option ℚ
  fee : Option ℚ
  sec_fee : Option ℚ
  taf_fee : Option ℚ
deriving DecidableEq

instance : Inhabited RawItem :=
  ⟨⟨none, none, none, none, none, none, none, none, none, none, none⟩⟩

/-- JS truthiness of a nullable string field (`!item.side`): absent or empty
is falsy. -/
def truthyStr : Option String → Bool
  | none => false
  | some s => !(s == "")

/-- JS truthiness of a nullable numeric field (`!item.executed_price`):
absent or zero is falsy. -/
def truthyNum : Option ℚ → Bool
  | none => false
  | some q => !(q == 0)

/-- `!item.side || !item.symbol || !item.executed_price ||
!item.transaction_date` — the first validation check of `applyJson`. -/
def missingRequired (it : RawItem) : Bool :=
  !truthyStr it.side || !truthyStr it.symbol || !truthyNum it.executed_price
    || !truthyStr it.transaction_date

/-- An item passes validation when none of the three sequential checks of
`applyJson` throws: required fields are truthy, a BUY has
`input_amount_usd`, a SELL has `input_shares`. -/
def itemValid (it : RawItem) : Bool :=
  !missingRequired it
    && !(it.side == some "BUY" && it.input_amount_usd == none)
    && !(it.side == some "SELL" && it.input_shares == none)

/-- The message thrown for item `i` (0-based here; the source displays
`i + 1`), in the source's check order. -/
def itemMsg (i : Nat) (it : RawItem) : String :=
  if missingRequired it then
    s!"Item {i+1} missing required fields (side, symbol, executed_price, transaction_date)"
  else if it.side == some "BUY" && it.input_amount_usd == none then
    s!"Item {i+1}: BUY requires input_amount_usd"
  else
    s!"Item {i+1}: SELL requires input_shares"

/-- The `arr.forEach` validation loop: the first invalid item throws its
message; a fully valid list produces no error. -/
def firstErrorFrom : Nat → List RawItem → Option String
  | _, [] => none
  | i, it :: rest =>
    if itemValid it then firstErrorFrom (i + 1) rest else some (itemMsg i it)

/-- The array path of `applyJson` (lines 354-371): an empty array or any
invalid item aborts with an error; otherwise the whole array becomes the
batch preview. -/
def applyJsonArr (items : List RawItem) : Except String (List RawItem) :=
  if items.isEmpty then Except.error "Empty array"
  else
    match firstErrorFrom 0 items with
    | some e => Except.error e
    | none => Except.ok items

/-- Lower a validated item into the shape `buildPayload` reads.  The
defaults are never reached on the batch path: `handleBatchSave` only maps
`buildPayload` over arrays every item of which passed validation. -/
def toRawTrade (it : RawItem) : RawTrade :=
  ⟨it.side.getD "", it.symbol.getD "", it.transaction_date.getD "",
    it.executed_price.getD 0, it.input_amount_usd, it.input_shares,
    it.commission, it.vat, it.fee, it.sec_fee, it.taf_fee⟩

/-- The batch flow end to end (`applyJson` then `handleBatchSave`, lines
405-424): on validation failure the existing record set is returned
unchanged together with the error message; on success the payloads of all
items are appended. -/
def batchImport (existing : List DimeTransaction) (items : List RawItem) :
    List DimeTransaction × Option String :=
  match applyJsonArr items with
  | Except.error e => (existing, some e)
  | Except.ok arr => (existing ++ arr.map (fun it => buildPayload (toRawTrade it)), none)

lemma firstErrorFrom_invalid (l : List RawItem) :
    ∀ k, (∃ it ∈ l, itemValid it = false) →
      ∃ j, ∃ hj : j < l.length, itemValid (l.get ⟨j, hj⟩) = false ∧
        firstErrorFrom k l = some (itemMsg (k + j) (l.get ⟨j, hj⟩)) := by
  induction l with
  | nil => intro k h; simp at h
  | cons a rest ih =>
    intro k h
    by_cases ha : itemValid a
    · have hrest : ∃ it ∈ rest, itemValid it = false := by
        rcases h with ⟨it, hmem, hv⟩
        rcases List.mem_cons.mp hmem with heq | hmem2
        · rw [heq] at hv; rw [ha] at hv; cases hv
        · exact ⟨it, hmem2, hv⟩
      rcases ih (k + 1) hrest with ⟨j, hj, hv, he⟩
      refine ⟨j + 1, by simpa using Nat.succ_lt_succ hj, hv, ?_⟩
      rw [firstErrorFrom, if_pos ha, he]
      have harith : k + 1 + j = k + (j + 1) := by omega
      rw [harith]
      rfl
    · refine ⟨0, by simp, by simpa using eq_false_of_ne_true ha, ?_⟩
      rw [firstErrorFrom, if_neg ha]
      simp

/-- Claim C5: if any item of a batch fails validation, the whole batch is
rejected — the flow returns the existing record set unchanged, no payload is
appended, and the error message it reports is the one identifying the
(first) offending item's index. -/
theorem batch_import_rejects_invalid (existing : List DimeTransaction)
    (items : List RawItem) (h : ∃ it ∈ items, itemValid it = false) :
    ∃ j, ∃ hj : j < items.length, itemValid (items.get ⟨j, hj⟩) = false ∧
      batchImport existing items
        = (existing, some (itemMsg j (items.get ⟨j, hj⟩))) := by
  rcases firstErrorFrom_invalid items 0 h with ⟨j, hj, hv, he⟩
  refine ⟨j, hj, hv, ?_⟩
  have hne : items ≠ [] := by
    rintro rfl
    simp at hj
  rw [batchImport, applyJsonArr, if_neg (by simpa using hne), he]
  simp

/-- A valid BUY batch item. -/
def exItemGood : RawItem :=
  ⟨some "BUY", some "AAPL", some 100, some "2024-01-01", some 1000, none,
    none, none, none, none, none⟩

/-- A batch item missing `executed_price` (the spec's example of an invalid
item). -/
def exItemBad : RawItem :=
  ⟨some "SELL", some "MSFT", none, some "2024-01-02", none, some 5,
    none, none, none, none, none⟩

/-- A two-item batch whose second item is invalid. -/
def exBatch : List RawItem := [exItemGood, exItemBad]

/-- Witness for C5: the concrete batch with one invalid item is rejected and
the existing record set ([the C4 BUY record]) is left unchanged. -/
theorem batch_import_rejects_invalid_witness :
    (∃ it ∈ exBatch, itemValid it = false) ∧
    ∃ j, ∃ hj : j < exBatch.length, itemValid (exBatch.get ⟨j, hj⟩) = false ∧
      batchImport [txBuyX] exBatch
        = ([txBuyX], some (itemMsg j (exBatch.get ⟨j, hj⟩))) := by
  have h : ∃ it ∈ exBatch, itemValid it = false := by decide
  exact ⟨h, batch_import_rejects_invalid [txBuyX] exBatch h⟩

/-! ### Empty record sets (claim C9) -/

/-- Claim C9: on an empty record collection every aggregator returns zero
totals and empty groupings — the Balance Aggregator's total is 0 with no
accounts, both FX views give zero flows, count 0 and average rate 0, and the
Position Aggregator gives no symbol groups and zero invested / sold /
realized totals. -/
theorem empty_record_sets_all_zero :
    (calculateAssetView []).total = 0 ∧ (calculateAssetView []).accounts = [] ∧
    fxAnalytics [] = ⟨0, 0, 0, 0⟩ ∧
    totalThbVolume [] = 0 ∧ totalForeignVolume [] = 0 ∧ weightedAvgRate [] = 0 ∧
    symbolSummaries [] = [] ∧ netPL [] = 0 ∧ overallBuy [] = 0 ∧ overallSell [] = 0 := by
  refine ⟨rfl, rfl, rfl, rfl, rfl, ?_, rfl, rfl, ?_, rfl⟩
  · rw [weightedAvgRate]
    norm_num [totalForeignVolume]
  · rw [overallBuy]
    norm_num

end Pantagon
